import Mathlib

/-!
Shallow embedding of the BookAlchemy library-catalog application
(`app.py`, `data_models.py`): form validation for authors and books,
the persistence model (authors/books with cascading author delete),
the ISBN and publication-year entity-model validators, and the
title-search route.  Theorems settle the claims of the specification
against these definitions.
-/

namespace BookAlchemy

/-! ### Python string primitives (ASCII semantics) -/

/-- `str.strip()` on the left: drop leading whitespace. -/
def trimLeftL (l : List Char) : List Char := l.dropWhile Char.isWhitespace

/-- `str.strip()`: drop leading and trailing whitespace from a char list. -/
def trimList (l : List Char) : List Char :=
  ((l.dropWhile Char.isWhitespace).reverse.dropWhile Char.isWhitespace).reverse

/-- Python `s.strip()`. -/
def pyStrip (s : String) : String := ⟨trimList s.data⟩

/-- Python `ch.lower()` for a single character (ASCII case mapping). -/
def lowerChar (c : Char) : Char :=
  if 'A' ≤ c ∧ c ≤ 'Z' then Char.ofNat (c.toNat + 32) else c

/-- Python `s.lower()` (ASCII). -/
def pyLower (s : String) : String := ⟨s.data.map lowerChar⟩

/-- Python `s.isdigit()` (ASCII): non-empty and all characters are digits. -/
def pyIsDigit (s : String) : Bool := !s.data.isEmpty && s.data.all Char.isDigit

/-- Numeric value of a digit list, most significant first (as `int(s)` computes it). -/
def digitsToNat (l : List Char) : Nat :=
  l.foldl (fun n c => 10 * n + (c.toNat - 48)) 0

/-- Python `int(s)` on an already-stripped string: optional sign then digits,
anything else raises (`none`). -/
def pyInt (s : String) : Option Int :=
  match s.data with
  | [] => none
  | '-' :: ds => if !ds.isEmpty && ds.all Char.isDigit then some (-(digitsToNat ds : Int)) else none
  | '+' :: ds => if !ds.isEmpty && ds.all Char.isDigit then some (digitsToNat ds : Int) else none
  | ds => if ds.all Char.isDigit then some (digitsToNat ds : Int) else none

/-- Python `"; ".join(errors)`. -/
def joinSemi : List String → String
  | [] => ""
  | [e] => e
  | e :: es => e ++ "; " ++ joinSemi es

/-! ### Calendar dates (`datetime.date`) -/

/-- A calendar date as Python's `datetime.date` holds it. -/
structure Date where
  year : Nat
  month : Nat
  day : Nat
deriving DecidableEq, Repr

/-- Python `date` ordering is lexicographic on (year, month, day). -/
def Date.ltb (a b : Date) : Bool :=
  a.year < b.year ∨ (a.year = b.year ∧
    (a.month < b.month ∨ (a.month = b.month ∧ a.day < b.day)))

/-- Gregorian leap-year rule used by `datetime`. -/
def isLeap (y : Nat) : Bool :=
  (y % 4 = 0 ∧ y % 100 ≠ 0) ∨ y % 400 = 0

/-- Days in a month, as `datetime.date` validates them. -/
def daysInMonth (y m : Nat) : Nat :=
  if m = 2 then (if isLeap y then 29 else 28)
  else if m = 4 ∨ m = 6 ∨ m = 9 ∨ m = 11 then 30
  else 31

/-- Split a character list on `'-'` separators (for `%Y-%m-%d` parsing). -/
def splitDash : List Char → List (List Char)
  | [] => [[]]
  | c :: cs =>
    match splitDash cs with
    | [] => [[]]
    | g :: gs => if c = '-' then [] :: g :: gs else (c :: g) :: gs

/-- `datetime.strptime(s, "%Y-%m-%d").date()`: four-digit year (≥ 1),
one/two-digit month in 1..12, one/two-digit day valid for that month;
anything else raises `ValueError` (`none`). -/
def parseDate (s : String) : Option Date :=
  match splitDash s.data with
  | [ys, ms, ds] =>
    if ys.length = 4 ∧ ys.all Char.isDigit ∧
       1 ≤ ms.length ∧ ms.length ≤ 2 ∧ ms.all Char.isDigit ∧
       1 ≤ ds.length ∧ ds.length ≤ 2 ∧ ds.all Char.isDigit then
      let y := digitsToNat ys
      let m := digitsToNat ms
      let d := digitsToNat ds
      if 1 ≤ y ∧ 1 ≤ m ∧ m ≤ 12 ∧ 1 ≤ d ∧ d ≤ daysInMonth y m then
        some ⟨y, m, d⟩
      else none
    else none
  | _ => none

/-! ### Data model (`data_models.py`) -/

/-- A row of the `author` table. -/
structure AuthorRec where
  id : Int
  name : String
  birth_date : Option Date
  date_of_death : Option Date
deriving DecidableEq, Repr

/-- A row of the `book` table (`author_id` is a nullable foreign key). -/
structure BookRec where
  id : Int
  isbn : String
  title : String
  publication_year : Option Int
  author_id : Option Int
deriving DecidableEq, Repr

/-- The datastore: the `author` and `book` tables. -/
structure DB where
  authors : List AuthorRec
  books : List BookRec
deriving DecidableEq, Repr

/-- `Book.validate_publication_year`: a present year must be a non-negative
integer not exceeding 3000, otherwise the write raises `ValueError`. -/
def validate_publication_year (value : Option Int) : Except String (Option Int) :=
  match value with
  | none => .ok none
  | some v =>
    if v < 0 then .error "publication_year cannot be negative"
    else if v > 3000 then .error "publication_year seems unrealistic (>3000)"
    else .ok (some v)

/-- `Book.validate_isbn`: the ISBN must be non-empty after stripping,
otherwise the write raises `ValueError`; the stored value is the strip. -/
def validate_isbn (value : String) : Except String String :=
  if value = "" ∨ pyStrip value = "" then .error "isbn is required"
  else .ok (pyStrip value)

/-- Constructing a `Book` runs the attribute validators in keyword order
(`isbn` before `publication_year`); either validator raising aborts the write. -/
def mkBook (nid : Int) (title isbn : String) (year : Option Int)
    (author_id : Option Int) : Except String BookRec :=
  match validate_isbn isbn with
  | .error e => .error e
  | .ok i =>
    match validate_publication_year year with
    | .error e => .error e
    | .ok y => .ok ⟨nid, i, title, y, author_id⟩

/-! ### `/add_author` (`app.py`, `add_author`) -/

/-- A parsed optional date field: `None` when the string is empty or malformed. -/
def dateField (s : String) : Option Date := if s = "" then none else parseDate s

/-- `add_author`: the missing-name check. -/
def nameErrors (name : String) : List String :=
  if name = "" then ["Name is required."] else []

/-- `add_author`: the two malformed-date checks (`try/except` around
`strptime`). -/
def dateFormatErrors (birth_s death_s : String) : List String :=
  (if birth_s ≠ "" ∧ parseDate birth_s = none then ["Birth date must be YYYY-MM-DD."] else []) ++
  (if death_s ≠ "" ∧ parseDate death_s = none then ["Date of death must be YYYY-MM-DD."] else [])

/-- `add_author`: future-date and death-before-birth checks on the parsed
dates. -/
def dateOrderErrors (today : Date) (birth_s death_s : String) : List String :=
  (match dateField birth_s with
   | some b => if Date.ltb today b then ["Birth date cannot be in the future."] else []
   | none => []) ++
  (match dateField death_s with
   | some d => if Date.ltb today d then ["Date of death cannot be in the future."] else []
   | none => []) ++
  (match dateField birth_s, dateField death_s with
   | some b, some d => if Date.ltb d b then ["Date of death must be after birth date."] else []
   | _, _ => [])

/-- The error list `add_author` accumulates before the duplicate check:
missing name, malformed dates, future dates, death before birth. -/
def authorPreErrors (today : Date) (name birth_s death_s : String) : List String :=
  nameErrors name ++ dateFormatErrors birth_s death_s ++ dateOrderErrors today birth_s death_s

/-- The full error list of `add_author`: the accumulated errors, then the
case-insensitive duplicate-name check, which runs only when the name is
non-empty and no earlier error exists. -/
def authorErrors (db : DB) (today : Date) (name birth_s death_s : String) : List String :=
  authorPreErrors today name birth_s death_s ++
  (if name ≠ "" ∧ authorPreErrors today name birth_s death_s = [] ∧
      db.authors.any (fun a => pyLower a.name == pyLower name) then
    ["Author already exists."]
   else [])

/-- Autoincremented surrogate id for a new author row. -/
def nextAuthorId (db : DB) : Int := (db.authors.map (fun a => a.id)).foldr max 0 + 1

/-- Autoincremented surrogate id for a new book row. -/
def nextBookId (db : DB) : Int := (db.books.map (fun b => b.id)).foldr max 0 + 1

/-- The POST branch of the `/add_author` route: strip the three fields,
accumulate validation errors; on any error re-render with the joined
message and leave the datastore unchanged, otherwise insert the author. -/
def add_author (db : DB) (today : Date) (rawName rawBirth rawDeath : String) :
    DB × String :=
  let name := pyStrip rawName
  let birth_s := pyStrip rawBirth
  let death_s := pyStrip rawDeath
  let errors := authorErrors db today name birth_s death_s
  if errors ≠ [] then (db, joinSemi errors)
  else
    (⟨db.authors ++ [⟨nextAuthorId db, name, dateField birth_s, dateField death_s⟩],
       db.books⟩,
     "Author \"" ++ name ++ "\" added.")

/-! ### `/add_book` (`app.py`, `add_book`) -/

/-- `is_valid_isbn` from `add_book`: keep only digit characters and require
exactly 10 or 13 of them. -/
def is_valid_isbn (raw : String) : Bool :=
  let digits := raw.data.filter Char.isDigit
  digits.length == 10 || digits.length == 13

/-- `author_obj` in `add_book`: `None` when the selector is empty, fails to
parse as an integer, or matches no author id. -/
def resolveAuthor (db : DB) (author_id_s : String) : Option AuthorRec :=
  if author_id_s = "" then none
  else
    match pyInt author_id_s with
    | none => none
    | some aid => db.authors.find? (fun a => a.id == aid)

/-- `year_value` in `add_book`: set as soon as the field is non-empty and
all digits (even when the range check then fails). -/
def yearValue (pubyear : String) : Option Nat :=
  if pubyear ≠ "" ∧ pyIsDigit pubyear then some (digitsToNat pubyear.data) else none

/-- `add_book`: the required-fields check. -/
def bookReqErrors (title isbn author_id_s : String) : List String :=
  if ¬(title ≠ "" ∧ isbn ≠ "" ∧ author_id_s ≠ "") then
    ["Title, ISBN, and author are required."] else []

/-- `add_book`: the author-resolution checks (`int()` raising, unknown id). -/
def bookAuthorErrors (db : DB) (author_id_s : String) : List String :=
  if author_id_s ≠ "" then
    match pyInt author_id_s with
    | none => ["Invalid author selection."]
    | some aid =>
      if (db.authors.find? (fun a => a.id == aid)).isNone then
        ["Selected author does not exist."] else []
  else []

/-- `add_book`: the ISBN digit-count check. -/
def bookIsbnErrors (isbn : String) : List String :=
  if isbn ≠ "" ∧ ¬ is_valid_isbn isbn then
    ["ISBN must contain 10 or 13 digits (hyphens/spaces allowed)."] else []

/-- `add_book`: the publication-year checks (digits, then 1450..current year). -/
def bookYearErrors (today : Date) (pubyear : String) : List String :=
  if pubyear ≠ "" then
    if pyIsDigit pubyear then
      if digitsToNat pubyear.data < 1450 ∨ digitsToNat pubyear.data > today.year then
        ["Publication year must be between 1450 and the current year."] else []
    else ["Publication year must be a number."]
  else []

/-- `add_book`: the per-author case-insensitive duplicate-title check,
which runs whenever a non-empty title and a resolved author are available. -/
def bookDupErrors (db : DB) (title author_id_s : String) : List String :=
  match resolveAuthor db author_id_s with
  | some a =>
    if title ≠ "" ∧
       db.books.any (fun b => b.author_id == some a.id && pyLower b.title == pyLower title) then
      ["This author already has a book with that title."]
    else []
  | none => []

/-- The error list `add_book` accumulates: required fields, author
resolution, ISBN shape, publication-year range, duplicate title. -/
def bookErrors (db : DB) (today : Date) (title isbn pubyear author_id_s : String) :
    List String :=
  bookReqErrors title isbn author_id_s ++ bookAuthorErrors db author_id_s ++
  bookIsbnErrors isbn ++ bookYearErrors today pubyear ++ bookDupErrors db title author_id_s

/-- `year_value` as handed to the `Book` constructor (a Python `int`). -/
def yearValueInt (pubyear : String) : Option Int :=
  (yearValue pubyear).map (fun n => (n : Int))

/-- `author_id=author_obj.id if author_obj else int(author_id)` in the
`Book` constructor call. -/
def chosenAuthorId (db : DB) (aid_s : String) : Option Int :=
  match resolveAuthor db aid_s with
  | some a => some a.id
  | none => pyInt aid_s

/-- The POST branch of the `/add_book` route: strip the four fields,
accumulate validation errors; on any error re-render with the joined
message and leave the datastore unchanged; otherwise construct the `Book`
(running the entity-model validators) and insert it, surfacing a validator
rejection as the caught-exception message with the datastore rolled back. -/
def add_book (db : DB) (today : Date) (rawTitle rawIsbn rawYear rawAuthorId : String) :
    DB × String :=
  let title := pyStrip rawTitle
  let isbn := pyStrip rawIsbn
  let pubyear := pyStrip rawYear
  let aid_s := pyStrip rawAuthorId
  let errors := bookErrors db today title isbn pubyear aid_s
  if errors ≠ [] then (db, joinSemi errors)
  else
    match mkBook (nextBookId db) title isbn (yearValueInt pubyear) (chosenAuthorId db aid_s) with
    | .error e => (db, "Could not add book: " ++ e)
    | .ok b => (⟨db.authors, db.books ++ [b]⟩, "Book \"" ++ title ++ "\" added.")

/-! ### `/book/<id>/delete` (`app.py`, `delete_book`) -/

/-- What the delete route reports. -/
inductive DeleteResult where
  | DeletedBookOnly
  | DeletedBookAndAuthor
  | NotFound
deriving DecidableEq, Repr

/-- `author.books`: the books currently linked to the author id. -/
def authorBooks (db : DB) (aid : Int) : List BookRec :=
  db.books.filter (fun b => b.author_id == some aid)

/-- The delete route in failure-free runs: 404 when no book has the id;
otherwise delete the book, and when its author is now bookless delete the
author too, reporting which variant occurred. -/
def delete_book (db : DB) (book_id : Int) : DB × DeleteResult :=
  match db.books.find? (fun b => b.id == book_id) with
  | none => (db, .NotFound)
  | some book =>
    let author := book.author_id.bind (fun aid => db.authors.find? (fun a => a.id == aid))
    let db1 : DB := ⟨db.authors, db.books.eraseP (fun b => b.id == book_id)⟩
    match author with
    | some a =>
      if authorBooks db1 a.id = [] then
        (⟨db1.authors.eraseP (fun x => x.id == a.id), db1.books⟩, .DeletedBookAndAuthor)
      else (db1, .DeletedBookOnly)
    | none => (db1, .DeletedBookOnly)

/-- Outcome of the delete route when commits may fail: a normal response or
a propagated exception. -/
inductive TxOutcome where
  | ok (r : DeleteResult)
  | raised
deriving DecidableEq, Repr

/-- The delete route with explicit commit outcomes.  The route issues two
separate commits: one for the book deletion and, when the author is left
bookless, a second one for the author deletion.  A failed commit rolls its
own transaction back and the exception propagates, so a failure of the
second commit leaves the first commit's effect in place. -/
def delete_book_tx (db : DB) (book_id : Int) (commit1 commit2 : Bool) :
    DB × TxOutcome :=
  match db.books.find? (fun b => b.id == book_id) with
  | none => (db, .ok .NotFound)
  | some book =>
    if commit1 then
      let author := book.author_id.bind (fun aid => db.authors.find? (fun a => a.id == aid))
      let db1 : DB := ⟨db.authors, db.books.eraseP (fun b => b.id == book_id)⟩
      match author with
      | some a =>
        if authorBooks db1 a.id = [] then
          if commit2 then
            (⟨db1.authors.eraseP (fun x => x.id == a.id), db1.books⟩,
             .ok .DeletedBookAndAuthor)
          else (db1, .raised)
        else (db1, .ok .DeletedBookOnly)
      | none => (db1, .ok .DeletedBookOnly)
    else (db, .raised)

/-! ### `/` with optional `q` (`app.py`, `home`) -/

/-- SQL `LIKE` pattern matching over characters: `%` matches any sequence,
`_` any single character, anything else itself. -/
def likeMatch : List Char → List Char → Bool
  | [], cs => cs.isEmpty
  | p :: ps, cs =>
    if p = '%' then cs.tails.any (fun t => likeMatch ps t)
    else
      match cs with
      | [] => false
      | c :: cs' => (p == '_' || p == c) && likeMatch ps cs'

/-- `column.ilike(pattern)`: case-insensitive `LIKE`, i.e. `LIKE` after
lowercasing both sides. -/
def ilike (column pattern : String) : Bool :=
  likeMatch (pyLower pattern).data (pyLower column).data

/-- The `/` route: strip the `q` parameter; when non-empty filter books by
`title ILIKE '%q%'`, otherwise list all; `no_results` is set when the
stripped query is non-empty and nothing matched. -/
def home (db : DB) (rawQ : String) : List BookRec × Bool :=
  let q := pyStrip rawQ
  let books :=
    if q ≠ "" then db.books.filter (fun b => ilike b.title ("%" ++ q ++ "%"))
    else db.books
  (books, q ≠ "" && books.isEmpty)

/-- Case-insensitive substring containment, as the spec describes search. -/
def containsCI (needle hay : String) : Bool :=
  decide ((pyLower needle).data <:+: (pyLower hay).data)

/-- The search behavior the spec sentence claims: the *raw* query string is
passed straight to the book query and matched as a case-insensitive
substring, the full listing returned when it is empty. -/
def homeSpecClaim (db : DB) (rawQ : String) : List BookRec × Bool :=
  let books :=
    if rawQ ≠ "" then db.books.filter (fun b => containsCI rawQ b.title)
    else db.books
  (books, rawQ ≠ "" && books.isEmpty)

/-- Sample datastore: author 1 owns one book, author 2 owns two. -/
def sampleDB : DB :=
  ⟨[⟨1, "A", none, none⟩, ⟨2, "B", none, none⟩],
   [⟨1, "isbn1", "T", none, some 1⟩, ⟨2, "isbn2", "U", none, some 2⟩,
    ⟨3, "isbn3", "V", none, some 2⟩]⟩

/-! ### Helper lemmas -/

theorem mem_if_singleton {c : Prop} [Decidable c] {m x : String} :
    m ∈ (if c then [x] else []) ↔ c ∧ m = x := by
  by_cases h : c <;> simp [h]

theorem mem_nameErrors {m n : String} :
    m ∈ nameErrors n ↔ n = "" ∧ m = "Name is required." := by
  unfold nameErrors; exact mem_if_singleton

theorem mem_dateFormatErrors {m b d : String} :
    m ∈ dateFormatErrors b d ↔
      (b ≠ "" ∧ parseDate b = none ∧ m = "Birth date must be YYYY-MM-DD.") ∨
      (d ≠ "" ∧ parseDate d = none ∧ m = "Date of death must be YYYY-MM-DD.") := by
  unfold dateFormatErrors
  simp only [List.mem_append, mem_if_singleton]
  tauto

theorem dateOrderErrors_msgs {m : String} {today : Date} {b d : String}
    (hm : m ∈ dateOrderErrors today b d) :
    m = "Birth date cannot be in the future." ∨
    m = "Date of death cannot be in the future." ∨
    m = "Date of death must be after birth date." := by
  unfold dateOrderErrors at hm
  simp only [List.mem_append] at hm
  rcases hm with (hm | hm) | hm
  · rcases hb : dateField b with _ | bd <;> rw [hb] at hm <;> revert hm <;>
      first
        | exact fun hm => absurd hm (List.not_mem_nil m)
        | (intro hm; rw [mem_if_singleton] at hm; exact Or.inl hm.2)
  · rcases hd : dateField d with _ | dd <;> rw [hd] at hm <;> revert hm <;>
      first
        | exact fun hm => absurd hm (List.not_mem_nil m)
        | (intro hm; rw [mem_if_singleton] at hm; exact Or.inr (Or.inl hm.2))
  · rcases hb : dateField b with _ | bd <;> rcases hd : dateField d with _ | dd <;>
      rw [hb, hd] at hm <;> revert hm <;>
      first
        | exact fun hm => absurd hm (List.not_mem_nil m)
        | (intro hm; rw [mem_if_singleton] at hm; exact Or.inr (Or.inr hm.2))

theorem authorPreErrors_msgs {m : String} {today : Date} {n b d : String}
    (hm : m ∈ authorPreErrors today n b d) :
    m = "Name is required." ∨
    m = "Birth date must be YYYY-MM-DD." ∨ m = "Date of death must be YYYY-MM-DD." ∨
    m = "Birth date cannot be in the future." ∨
    m = "Date of death cannot be in the future." ∨
    m = "Date of death must be after birth date." := by
  unfold authorPreErrors at hm
  simp only [List.mem_append] at hm
  rcases hm with (hm | hm) | hm
  · exact Or.inl (mem_nameErrors.mp hm).2
  · rcases mem_dateFormatErrors.mp hm with h | h
    · exact Or.inr (Or.inl h.2.2)
    · exact Or.inr (Or.inr (Or.inl h.2.2))
  · rcases dateOrderErrors_msgs hm with h | h | h
    · exact Or.inr (Or.inr (Or.inr (Or.inl h)))
    · exact Or.inr (Or.inr (Or.inr (Or.inr (Or.inl h))))
    · exact Or.inr (Or.inr (Or.inr (Or.inr (Or.inr h))))

theorem bookReqErrors_msgs {m t i a : String} (hm : m ∈ bookReqErrors t i a) :
    m = "Title, ISBN, and author are required." := by
  unfold bookReqErrors at hm; exact (mem_if_singleton.mp hm).2

theorem bookAuthorErrors_msgs {m : String} {db : DB} {a : String}
    (hm : m ∈ bookAuthorErrors db a) :
    m = "Invalid author selection." ∨ m = "Selected author does not exist." := by
  unfold bookAuthorErrors at hm
  split at hm
  · split at hm
    · exact Or.inl (List.mem_singleton.mp hm)
    · split at hm
      · exact Or.inr (List.mem_singleton.mp hm)
      · exact absurd hm (List.not_mem_nil m)
  · exact absurd hm (List.not_mem_nil m)

theorem mem_bookIsbnErrors {m i : String} :
    m ∈ bookIsbnErrors i ↔
      i ≠ "" ∧ ¬ is_valid_isbn i ∧
        m = "ISBN must contain 10 or 13 digits (hyphens/spaces allowed)." := by
  unfold bookIsbnErrors
  rw [mem_if_singleton]
  tauto

theorem bookYearErrors_msgs {m : String} {today : Date} {y : String}
    (hm : m ∈ bookYearErrors today y) :
    m = "Publication year must be between 1450 and the current year." ∨
    m = "Publication year must be a number." := by
  unfold bookYearErrors at hm
  split at hm
  · split at hm
    · split at hm
      · exact Or.inl (List.mem_singleton.mp hm)
      · exact absurd hm (List.not_mem_nil m)
    · exact Or.inr (List.mem_singleton.mp hm)
  · exact absurd hm (List.not_mem_nil m)

theorem bookDupErrors_msgs {m : String} {db : DB} {t a : String}
    (hm : m ∈ bookDupErrors db t a) :
    m = "This author already has a book with that title." := by
  unfold bookDupErrors at hm
  rcases hr : resolveAuthor db a with _ | au <;> rw [hr] at hm
  · exact absurd hm (List.not_mem_nil m)
  · exact (mem_if_singleton.mp hm).2

theorem mem_bookErrors {m : String} {db : DB} {today : Date} {t i y a : String} :
    m ∈ bookErrors db today t i y a ↔
      m ∈ bookReqErrors t i a ∨ m ∈ bookAuthorErrors db a ∨ m ∈ bookIsbnErrors i ∨
      m ∈ bookYearErrors today y ∨ m ∈ bookDupErrors db t a := by
  unfold bookErrors
  simp only [List.mem_append]
  tauto

/-! ### C6: ISBN digit-count validation -/

/-- C6: for every submitted ISBN string, book validation strips all
non-digit characters and reports the `InvalidISBN` message exactly when the
remaining digit count is neither 10 nor 13; the stripping is idempotent and
is the identity on digits-only strings; "978-0-13-468599-1" (13 digits)
validates while "12345" (5 digits) fails. -/
theorem C6_isbn_digit_count :
    (∀ (db : DB) (today : Date) (title isbn pubyear aid_s : String),
        isbn ≠ "" →
        ("ISBN must contain 10 or 13 digits (hyphens/spaces allowed)." ∈
            bookErrors db today title isbn pubyear aid_s ↔
          ¬((isbn.data.filter Char.isDigit).length = 10 ∨
            (isbn.data.filter Char.isDigit).length = 13))) ∧
    (∀ l : List Char, (l.filter Char.isDigit).filter Char.isDigit = l.filter Char.isDigit) ∧
    (∀ l : List Char, l.all Char.isDigit = true → l.filter Char.isDigit = l) ∧
    is_valid_isbn "978-0-13-468599-1" = true ∧
    is_valid_isbn "12345" = false := by
  refine ⟨?_, ?_, ?_, by decide, by decide⟩
  · intro db today title isbn pubyear aid_s hne
    constructor
    · intro hm
      rcases mem_bookErrors.mp hm with h | h | h | h | h
      · exact absurd (bookReqErrors_msgs h) (by decide)
      · rcases bookAuthorErrors_msgs h with h' | h' <;> exact absurd h' (by decide)
      · have hinv := (mem_bookIsbnErrors.mp h).2.1
        intro hc
        apply hinv
        unfold is_valid_isbn
        simp only [Bool.or_eq_true, beq_iff_eq]
        exact hc
      · rcases bookYearErrors_msgs h with h' | h' <;> exact absurd h' (by decide)
      · exact absurd (bookDupErrors_msgs h) (by decide)
    · intro hc
      apply mem_bookErrors.mpr
      refine Or.inr (Or.inr (Or.inl ?_))
      apply mem_bookIsbnErrors.mpr
      refine ⟨hne, ?_, rfl⟩
      unfold is_valid_isbn
      simp only [Bool.or_eq_true, beq_iff_eq]
      exact hc
  · intro l
    rw [List.filter_filter]
    apply List.filter_congr
    intro x _
    exact Bool.and_self _
  · intro l h
    apply List.filter_eq_self.mpr
    intro x hx
    exact (List.all_eq_true.mp h) x hx

/-- C6 witness: instantiating the hypothesis-bearing part at the concrete
failing ISBN "12345". -/
theorem C6_isbn_digit_count_w :
    ("12345" : String) ≠ "" ∧
    ("ISBN must contain 10 or 13 digits (hyphens/spaces allowed)." ∈
        bookErrors ⟨[], []⟩ ⟨2026, 10, 12⟩ "T" "12345" "" "1" ↔
      ¬((("12345" : String).data.filter Char.isDigit).length = 10 ∨
        (("12345" : String).data.filter Char.isDigit).length = 13)) :=
  ⟨by decide,
   C6_isbn_digit_count.1 ⟨[], []⟩ ⟨2026, 10, 12⟩ "T" "12345" "" "1" (by decide)⟩

/-! ### C8: validation errors never reach storage -/

/-- C8: whenever an author or book submission produces at least one
validation error, the datastore is left unchanged and the form is
re-rendered with the errors joined into one combined message. -/
theorem C8_errors_never_reach_storage :
    ∀ (db : DB) (today : Date) (rn rb rd rt ri ry ra : String),
      (authorErrors db today (pyStrip rn) (pyStrip rb) (pyStrip rd) ≠ [] →
        add_author db today rn rb rd =
          (db, joinSemi (authorErrors db today (pyStrip rn) (pyStrip rb) (pyStrip rd)))) ∧
      (bookErrors db today (pyStrip rt) (pyStrip ri) (pyStrip ry) (pyStrip ra) ≠ [] →
        add_book db today rt ri ry ra =
          (db, joinSemi (bookErrors db today (pyStrip rt) (pyStrip ri) (pyStrip ry) (pyStrip ra)))) := by
  intro db today rn rb rd rt ri ry ra
  constructor
  · intro h
    unfold add_author
    rw [if_pos h]
  · intro h
    unfold add_book
    rw [if_pos h]

/-- C8 witness: an empty author form and an empty book form both fail
validation, leave the datastore unchanged, and surface the joined message. -/
theorem C8_errors_never_reach_storage_w :
    add_author ⟨[], []⟩ ⟨2026, 10, 12⟩ "" "" "" =
      ((⟨[], []⟩ : DB),
        joinSemi (authorErrors ⟨[], []⟩ ⟨2026, 10, 12⟩ (pyStrip "") (pyStrip "") (pyStrip ""))) ∧
    add_book ⟨[], []⟩ ⟨2026, 10, 12⟩ "" "" "" "" =
      ((⟨[], []⟩ : DB),
        joinSemi (bookErrors ⟨[], []⟩ ⟨2026, 10, 12⟩ (pyStrip "") (pyStrip "") (pyStrip "") (pyStrip ""))) :=
  ⟨(C8_errors_never_reach_storage ⟨[], []⟩ ⟨2026, 10, 12⟩ "" "" "" "" "" "" "").1 (by decide),
   (C8_errors_never_reach_storage ⟨[], []⟩ ⟨2026, 10, 12⟩ "" "" "" "" "" "" "").2 (by decide)⟩

/-! ### C4: author validation accumulates errors -/

/-- C4: author validation accumulates errors instead of short-circuiting: a
date field not matching `YYYY-MM-DD` contributes its `InvalidFormat`
message without aborting the other checks, so an empty name and a
malformed date are both reported, and the rendered message is the join of
the whole error list. -/
theorem C4_author_errors_accumulate :
    ∀ (db : DB) (today : Date) (rn rb rd : String),
      (pyStrip rb ≠ "" ∧ parseDate (pyStrip rb) = none →
        "Birth date must be YYYY-MM-DD." ∈
          authorErrors db today (pyStrip rn) (pyStrip rb) (pyStrip rd)) ∧
      (pyStrip rd ≠ "" ∧ parseDate (pyStrip rd) = none →
        "Date of death must be YYYY-MM-DD." ∈
          authorErrors db today (pyStrip rn) (pyStrip rb) (pyStrip rd)) ∧
      (pyStrip rn = "" →
        "Name is required." ∈
          authorErrors db today (pyStrip rn) (pyStrip rb) (pyStrip rd)) ∧
      (authorErrors db today (pyStrip rn) (pyStrip rb) (pyStrip rd) ≠ [] →
        (add_author db today rn rb rd).2 =
          joinSemi (authorErrors db today (pyStrip rn) (pyStrip rb) (pyStrip rd))) := by
  intro db today rn rb rd
  refine ⟨?_, ?_, ?_, ?_⟩
  · intro h
    unfold authorErrors
    apply List.mem_append_left
    unfold authorPreErrors
    apply List.mem_append_left
    apply List.mem_append_right
    exact mem_dateFormatErrors.mpr (Or.inl ⟨h.1, h.2, rfl⟩)
  · intro h
    unfold authorErrors
    apply List.mem_append_left
    unfold authorPreErrors
    apply List.mem_append_left
    apply List.mem_append_right
    exact mem_dateFormatErrors.mpr (Or.inr ⟨h.1, h.2, rfl⟩)
  · intro h
    unfold authorErrors
    apply List.mem_append_left
    unfold authorPreErrors
    apply List.mem_append_left
    apply List.mem_append_left
    exact mem_nameErrors.mpr ⟨h, rfl⟩
  · intro h
    unfold add_author
    rw [if_pos h]

/-- C4 witness: an empty name together with the malformed birth date
"bad!" reports both messages, joined. -/
theorem C4_author_errors_accumulate_w :
    (pyStrip "bad!" ≠ "" ∧ parseDate (pyStrip "bad!") = none) ∧
    "Birth date must be YYYY-MM-DD." ∈
      authorErrors ⟨[], []⟩ ⟨2026, 10, 12⟩ (pyStrip "") (pyStrip "bad!") (pyStrip "") ∧
    "Name is required." ∈
      authorErrors ⟨[], []⟩ ⟨2026, 10, 12⟩ (pyStrip "") (pyStrip "bad!") (pyStrip "") ∧
    (add_author ⟨[], []⟩ ⟨2026, 10, 12⟩ "" "bad!" "").2 =
      joinSemi (authorErrors ⟨[], []⟩ ⟨2026, 10, 12⟩ (pyStrip "") (pyStrip "bad!") (pyStrip "")) :=
  ⟨by decide,
   (C4_author_errors_accumulate ⟨[], []⟩ ⟨2026, 10, 12⟩ "" "bad!" "").1 (by decide),
   (C4_author_errors_accumulate ⟨[], []⟩ ⟨2026, 10, 12⟩ "" "bad!" "").2.2.1 (by decide),
   (C4_author_errors_accumulate ⟨[], []⟩ ⟨2026, 10, 12⟩ "" "bad!" "").2.2.2 (by decide)⟩

/-! ### C5: duplicate-author check -/

/-- C5: the duplicate-author check runs only when no earlier error exists,
and when it runs, a submitted name whose lowercase form equals an existing
author's lowercase name makes validation fail with exactly the
`DuplicateAuthor` message, regardless of case differences. -/
theorem C5_duplicate_author_check :
    ∀ (db : DB) (today : Date) (n b d : String),
      (authorPreErrors today n b d ≠ [] →
        "Author already exists." ∉ authorErrors db today n b d) ∧
      (authorPreErrors today n b d = [] →
        (∃ a ∈ db.authors, pyLower a.name = pyLower n) →
        authorErrors db today n b d = ["Author already exists."]) := by
  intro db today n b d
  constructor
  · intro hpre hm
    unfold authorErrors at hm
    rcases List.mem_append.mp hm with h | h
    · rcases authorPreErrors_msgs h with h' | h' | h' | h' | h' | h' <;>
        exact absurd h' (by decide)
    · exact hpre (mem_if_singleton.mp h).1.2.1
  · intro hpre hex
    have hname : nameErrors n = [] := by
      have := hpre
      unfold authorPreErrors at this
      exact (List.append_eq_nil.mp (List.append_eq_nil.mp this).1).1
    have hne : n ≠ "" := by
      intro h0
      unfold nameErrors at hname
      rw [if_pos h0] at hname
      exact absurd hname (by decide)
    have hany : db.authors.any (fun a => pyLower a.name == pyLower n) = true := by
      rcases hex with ⟨a, ha, hval⟩
      exact List.any_eq_true.mpr ⟨a, ha, beq_iff_eq.mpr hval⟩
    unfold authorErrors
    rw [hpre, if_pos ⟨hne, rfl, hany⟩]
    rfl

/-- C5 witness: with "Tolkien" stored, submitting "tolkien" (no other
errors) fails with exactly the duplicate message; and with a missing name
the duplicate message does not appear. -/
theorem C5_duplicate_author_check_w :
    authorErrors ⟨[⟨1, "Tolkien", none, none⟩], []⟩ ⟨2026, 10, 12⟩ "tolkien" "" "" =
      ["Author already exists."] ∧
    "Author already exists." ∉
      authorErrors ⟨[⟨1, "Tolkien", none, none⟩], []⟩ ⟨2026, 10, 12⟩ "" "" "" :=
  ⟨(C5_duplicate_author_check ⟨[⟨1, "Tolkien", none, none⟩], []⟩ ⟨2026, 10, 12⟩
        "tolkien" "" "").2 (by decide) ⟨⟨1, "Tolkien", none, none⟩, by decide, by decide⟩,
   (C5_duplicate_author_check ⟨[⟨1, "Tolkien", none, none⟩], []⟩ ⟨2026, 10, 12⟩
        "" "" "").1 (by decide)⟩

/-! ### C7: duplicate-title check -/

/-- C7: whenever a non-empty title and a resolved author are available, the
duplicate-title check is scoped to that author and fires with the
`DuplicateTitle` message exactly when that author already has a book whose
title matches case-insensitively; the same title under another author does
not trigger it. -/
theorem C7_duplicate_title_scoped :
    ∀ (db : DB) (today : Date) (t i y a_s : String) (a : AuthorRec),
      resolveAuthor db a_s = some a → t ≠ "" →
      ("This author already has a book with that title." ∈
          bookErrors db today t i y a_s ↔
        ∃ b ∈ db.books, b.author_id = some a.id ∧ pyLower b.title = pyLower t) := by
  intro db today t i y a_s a hr ht
  constructor
  · intro hm
    rcases mem_bookErrors.mp hm with h | h | h | h | h
    · exact absurd (bookReqErrors_msgs h) (by decide)
    · rcases bookAuthorErrors_msgs h with h' | h' <;> exact absurd h' (by decide)
    · exact absurd (mem_bookIsbnErrors.mp h).2.2 (by decide)
    · rcases bookYearErrors_msgs h with h' | h' <;> exact absurd h' (by decide)
    · unfold bookDupErrors at h
      rw [hr] at h
      have hc := (mem_if_singleton.mp h).1.2
      rcases List.any_eq_true.mp hc with ⟨b, hb, hpred⟩
      simp only [Bool.and_eq_true, beq_iff_eq] at hpred
      exact ⟨b, hb, hpred.1, hpred.2⟩
  · intro hex
    apply mem_bookErrors.mpr
    refine Or.inr (Or.inr (Or.inr (Or.inr ?_)))
    unfold bookDupErrors
    rw [hr]
    apply mem_if_singleton.mpr
    rcases hex with ⟨b, hb, h1, h2⟩
    refine ⟨⟨ht, List.any_eq_true.mpr ⟨b, hb, ?_⟩⟩, rfl⟩
    simp only [Bool.and_eq_true, beq_iff_eq]
    exact ⟨h1, h2⟩

/-- C7 witness: with "Dune" stored under author 1, submitting "dune" under
author 1 triggers the duplicate message, while submitting it under author
2 does not. -/
theorem C7_duplicate_title_scoped_w :
    ("This author already has a book with that title." ∈
        bookErrors ⟨[⟨1, "A", none, none⟩, ⟨2, "B", none, none⟩],
          [⟨1, "x", "Dune", none, some 1⟩]⟩ ⟨2026, 10, 12⟩ "dune" "1234567890" "" "1" ↔
      ∃ b ∈ [⟨1, "x", "Dune", none, some 1⟩].map (fun b : BookRec => b),
        b.author_id = some (1 : Int) ∧ pyLower b.title = pyLower "dune") ∧
    ("This author already has a book with that title." ∈
        bookErrors ⟨[⟨1, "A", none, none⟩, ⟨2, "B", none, none⟩],
          [⟨1, "x", "Dune", none, some 1⟩]⟩ ⟨2026, 10, 12⟩ "dune" "1234567890" "" "2" ↔
      ∃ b ∈ [⟨1, "x", "Dune", none, some 1⟩].map (fun b : BookRec => b),
        b.author_id = some (2 : Int) ∧ pyLower b.title = pyLower "dune") := by
  constructor
  · have := C7_duplicate_title_scoped
      ⟨[⟨1, "A", none, none⟩, ⟨2, "B", none, none⟩], [⟨1, "x", "Dune", none, some 1⟩]⟩
      ⟨2026, 10, 12⟩ "dune" "1234567890" "" "1" ⟨1, "A", none, none⟩ (by decide) (by decide)
    simpa using this
  · have := C7_duplicate_title_scoped
      ⟨[⟨1, "A", none, none⟩, ⟨2, "B", none, none⟩], [⟨1, "x", "Dune", none, some 1⟩]⟩
      ⟨2026, 10, 12⟩ "dune" "1234567890" "" "2" ⟨2, "B", none, none⟩ (by decide) (by decide)
    simpa using this

/-! ### Stripping lemmas and entity-model validator lemmas -/

theorem if_singleton_eq_nil {c : Prop} [Decidable c] {x : String} :
    (if c then [x] else []) = [] ↔ ¬c := by
  by_cases h : c <;> simp [h]

theorem dropWhile_trimmed (p : Char → Bool) (A : List Char) (hA : A.dropWhile p = A) :
    ((A.reverse.dropWhile p).reverse).dropWhile p = (A.reverse.dropWhile p).reverse := by
  have hpre : ∃ t, (A.reverse.dropWhile p).reverse ++ t = A := by
    have h1 : (A.reverse.dropWhile p).reverse.reverse <:+ A.reverse := by
      rw [List.reverse_reverse]
      exact List.dropWhile_suffix p
    exact List.reverse_suffix.mp h1
  rcases hpre with ⟨t, ht⟩
  rcases hX : (A.reverse.dropWhile p).reverse with _ | ⟨c, r⟩
  · rfl
  · rw [hX] at ht
    have hpc : ¬ p c = true := by
      intro hp
      have hA2 : A = c :: (r ++ t) := by rw [← ht]; simp
      have hcontra := hA
      rw [hA2, List.dropWhile_cons_of_pos hp] at hcontra
      have hle : ((r ++ t).dropWhile p).length ≤ (r ++ t).length :=
        (List.IsSuffix.sublist (List.dropWhile_suffix p)).length_le
      rw [hcontra] at hle
      simp at hle
    rw [List.dropWhile_cons_of_neg hpc]

theorem trimList_idem (l : List Char) : trimList (trimList l) = trimList l := by
  unfold trimList
  rw [dropWhile_trimmed Char.isWhitespace (l.dropWhile Char.isWhitespace)
        (List.dropWhile_idempotent Char.isWhitespace l)]
  rw [List.reverse_reverse, List.dropWhile_idempotent]

theorem pyStrip_idem (s : String) : pyStrip (pyStrip s) = pyStrip s := by
  unfold pyStrip
  show String.mk (trimList (trimList s.data)) = String.mk (trimList s.data)
  rw [trimList_idem]

theorem validate_isbn_ok {isbn : String} (h : pyStrip isbn ≠ "") :
    validate_isbn isbn = .ok (pyStrip isbn) := by
  have hcond : ¬(isbn = "" ∨ pyStrip isbn = "") := by
    intro hc
    rcases hc with hc | hc
    · subst hc; exact h rfl
    · exact h hc
  unfold validate_isbn
  rw [if_neg hcond]

theorem validate_year_ok {y : Option Int} (h : ∀ v, y = some v → 0 ≤ v ∧ v ≤ 3000) :
    validate_publication_year y = .ok y := by
  rcases y with _ | v
  · rfl
  · have hb := h v rfl
    show (if v < 0 then (Except.error "publication_year cannot be negative" : Except String (Option Int))
          else if v > 3000 then Except.error "publication_year seems unrealistic (>3000)"
          else Except.ok (some v)) = Except.ok (some v)
    rw [if_neg (by omega), if_neg (by omega)]

theorem validate_year_neg {v : Int} (h : v < 0) :
    validate_publication_year (some v) = .error "publication_year cannot be negative" := by
  show (if v < 0 then (Except.error "publication_year cannot be negative" : Except String (Option Int))
        else if v > 3000 then Except.error "publication_year seems unrealistic (>3000)"
        else Except.ok (some v)) = Except.error "publication_year cannot be negative"
  rw [if_pos h]

theorem validate_year_big {v : Int} (h0 : ¬ v < 0) (h : v > 3000) :
    validate_publication_year (some v) = .error "publication_year seems unrealistic (>3000)" := by
  show (if v < 0 then (Except.error "publication_year cannot be negative" : Except String (Option Int))
        else if v > 3000 then Except.error "publication_year seems unrealistic (>3000)"
        else Except.ok (some v)) = Except.error "publication_year seems unrealistic (>3000)"
  rw [if_neg h0, if_pos h]

theorem mkBook_isbn_error {nid : Int} {title isbn : String} {year : Option Int}
    {aid : Option Int} (h : pyStrip isbn = "") :
    mkBook nid title isbn year aid = .error "isbn is required" := by
  unfold mkBook validate_isbn
  rw [if_pos (Or.inr h)]

theorem mkBook_year_error {nid : Int} {title isbn : String} {year : Option Int}
    {aid : Option Int} {e : String} (hi : pyStrip isbn ≠ "")
    (he : validate_publication_year year = .error e) :
    mkBook nid title isbn year aid = .error e := by
  unfold mkBook
  rw [validate_isbn_ok hi]
  simp only [he]

theorem mkBook_ok {nid : Int} {title isbn : String} {year : Option Int} {aid : Option Int}
    (hi : pyStrip isbn ≠ "")
    (hy : validate_publication_year year = .ok year) :
    mkBook nid title isbn year aid = .ok ⟨nid, pyStrip isbn, title, year, aid⟩ := by
  unfold mkBook
  rw [validate_isbn_ok hi]
  simp only [hy]

/-! ### C3: entity-model defense in depth -/

/-- C3: independently of form validation, constructing a `Book` whose
publication year is negative or above 3000, or whose ISBN is empty after
trimming, fails with the specific constraint-violation message; and on the
route, such a failure is surfaced as "Could not add book: " followed by the
constraint's own message (with the datastore rolled back), distinct from
any other failure text. -/
theorem C3_entity_model_rejects :
    (∀ (nid : Int) (title isbn : String) (year : Option Int) (aid : Option Int),
        (pyStrip isbn = "" ∨ ∃ v, year = some v ∧ (v < 0 ∨ v > 3000)) →
        ∃ e, mkBook nid title isbn year aid = .error e ∧
          (e = "isbn is required" ∨ e = "publication_year cannot be negative" ∨
           e = "publication_year seems unrealistic (>3000)")) ∧
    (∀ (db : DB) (today : Date) (rt ri ry ra e : String),
        bookErrors db today (pyStrip rt) (pyStrip ri) (pyStrip ry) (pyStrip ra) = [] →
        mkBook (nextBookId db) (pyStrip rt) (pyStrip ri) (yearValueInt (pyStrip ry))
          (chosenAuthorId db (pyStrip ra)) = .error e →
        add_book db today rt ri ry ra = (db, "Could not add book: " ++ e)) := by
  constructor
  · intro nid title isbn year aid h
    by_cases hi : pyStrip isbn = ""
    · exact ⟨"isbn is required", mkBook_isbn_error hi, Or.inl rfl⟩
    · rcases h with h | ⟨v, hv, hcase⟩
      · exact absurd h hi
      · subst hv
        by_cases hneg : v < 0
        · exact ⟨"publication_year cannot be negative",
            mkBook_year_error hi (validate_year_neg hneg), Or.inr (Or.inl rfl)⟩
        · have hbig : v > 3000 := by omega
          exact ⟨"publication_year seems unrealistic (>3000)",
            mkBook_year_error hi (validate_year_big hneg hbig), Or.inr (Or.inr rfl)⟩
  · intro db today rt ri ry ra e h0 hm
    unfold add_book
    rw [if_neg (fun hc => hc h0)]
    simp only [hm]

/-- C3 witness: an empty-after-trim ISBN is rejected by the model, and a
year of 3200 passes the form check when the clock reads year 3500 yet is
rejected by the model, surfaced with its specific message. -/
theorem C3_entity_model_rejects_w :
    (∃ e, mkBook 1 "T" "  " none none = .error e ∧
      (e = "isbn is required" ∨ e = "publication_year cannot be negative" ∨
       e = "publication_year seems unrealistic (>3000)")) ∧
    add_book ⟨[⟨1, "A", none, none⟩], []⟩ ⟨3500, 1, 1⟩ "T" "1234567890" "3200" "1" =
      ((⟨[⟨1, "A", none, none⟩], []⟩ : DB),
        "Could not add book: " ++ "publication_year seems unrealistic (>3000)") :=
  ⟨C3_entity_model_rejects.1 1 "T" "  " none none (Or.inl (by decide)),
   C3_entity_model_rejects.2 ⟨[⟨1, "A", none, none⟩], []⟩ ⟨3500, 1, 1⟩
     "T" "1234567890" "3200" "1" "publication_year seems unrealistic (>3000)"
     (by decide) (by rfl)⟩

/-! ### C10: the form-validated path satisfies the model validators -/

/-- C10: when book-form validation passes (and the current year is at most
3000), the values handed to the entity model satisfy the validators'
preconditions — the year is absent or an integer in 1450..current_year and
the ISBN is a non-empty trimmed string — so the error branches of
`validate_publication_year` and `validate_isbn` are unreachable and the
construction succeeds. -/
theorem C10_validated_path_meets_model :
    ∀ (db : DB) (today : Date) (rt ri ry ra : String),
      today.year ≤ 3000 →
      bookErrors db today (pyStrip rt) (pyStrip ri) (pyStrip ry) (pyStrip ra) = [] →
      (yearValueInt (pyStrip ry) = none ∨
        ∃ y : Nat, yearValueInt (pyStrip ry) = some (y : Int) ∧
          1450 ≤ y ∧ y ≤ today.year) ∧
      pyStrip ri ≠ "" ∧
      validate_isbn (pyStrip ri) = .ok (pyStrip ri) ∧
      validate_publication_year (yearValueInt (pyStrip ry)) = .ok (yearValueInt (pyStrip ry)) ∧
      ∃ b, mkBook (nextBookId db) (pyStrip rt) (pyStrip ri) (yearValueInt (pyStrip ry))
          (chosenAuthorId db (pyStrip ra)) = .ok b := by
  intro db today rt ri ry ra h3000 h0
  unfold bookErrors at h0
  simp only [List.append_eq_nil] at h0
  obtain ⟨⟨⟨⟨h1, _⟩, _⟩, h4⟩, _⟩ := h0
  unfold bookReqErrors at h1
  have hreq := not_not.mp (if_singleton_eq_nil.mp h1)
  have hisbn : pyStrip (pyStrip ri) ≠ "" := by
    rw [pyStrip_idem]
    exact hreq.2.1
  have hyear : yearValueInt (pyStrip ry) = none ∨
      ∃ y : Nat, yearValueInt (pyStrip ry) = some (y : Int) ∧
        1450 ≤ y ∧ y ≤ today.year := by
    by_cases hy0 : pyStrip ry = ""
    · left
      unfold yearValueInt yearValue
      rw [if_neg (by simp [hy0])]
      rfl
    · unfold bookYearErrors at h4
      rw [if_pos hy0] at h4
      by_cases hd : pyIsDigit (pyStrip ry) = true
      · rw [if_pos hd] at h4
        have hrange := if_singleton_eq_nil.mp h4
        right
        refine ⟨digitsToNat (pyStrip ry).data, ?_, by omega, by omega⟩
        unfold yearValueInt yearValue
        rw [if_pos ⟨hy0, hd⟩]
        rfl
      · rw [if_neg hd] at h4
        exact absurd h4 (by decide)
  have hvy : validate_publication_year (yearValueInt (pyStrip ry)) =
      .ok (yearValueInt (pyStrip ry)) := by
    apply validate_year_ok
    intro v hv
    rcases hyear with hn | ⟨y, hy, hy1, hy2⟩
    · rw [hn] at hv; exact absurd hv (by simp)
    · rw [hy] at hv
      have : (y : Int) = v := by simpa using hv
      omega
  refine ⟨hyear, hreq.2.1, ?_, hvy, ⟨_, mkBook_ok hisbn hvy⟩⟩
  rw [validate_isbn_ok hisbn, pyStrip_idem]

/-- C10 witness: a fully valid form submission in 2026. -/
theorem C10_validated_path_meets_model_w :
    (yearValueInt (pyStrip "1899") = none ∨
      ∃ y : Nat, yearValueInt (pyStrip "1899") = some (y : Int) ∧
        1450 ≤ y ∧ y ≤ (2026 : Nat)) ∧
    pyStrip "1234567890" ≠ "" ∧
    validate_isbn (pyStrip "1234567890") = .ok (pyStrip "1234567890") ∧
    validate_publication_year (yearValueInt (pyStrip "1899")) =
      .ok (yearValueInt (pyStrip "1899")) ∧
    ∃ b, mkBook (nextBookId ⟨[⟨1, "A", none, none⟩], []⟩) (pyStrip "T") (pyStrip "1234567890")
        (yearValueInt (pyStrip "1899"))
        (chosenAuthorId ⟨[⟨1, "A", none, none⟩], []⟩ (pyStrip "1")) = .ok b :=
  C10_validated_path_meets_model ⟨[⟨1, "A", none, none⟩], []⟩ ⟨2026, 10, 12⟩
    "T" "1234567890" "1899" "1" (by decide) (by decide)

/-! ### Keyed-list lemmas for the delete route -/

theorem find_key_of_mem {α : Type} (key : α → Int) :
    ∀ (l : List α), (l.map key).Nodup → ∀ b ∈ l,
      l.find? (fun x => key x == key b) = some b := by
  intro l
  induction l with
  | nil => intro _ b hb; exact absurd hb (List.not_mem_nil b)
  | cons x t ih =>
    intro hnd b hb
    rw [List.map_cons] at hnd
    have hnd2 := List.nodup_cons.mp hnd
    by_cases hx : key x = key b
    · have hxb : x = b := by
        rcases List.mem_cons.mp hb with h | h
        · exact h.symm
        · exact absurd (hx ▸ List.mem_map_of_mem key h) hnd2.1
      rw [List.find?_cons_of_pos _ (by simp [hx])]
      rw [hxb]
    · rw [List.find?_cons_of_neg _ (by simp [hx])]
      apply ih hnd2.2
      rcases List.mem_cons.mp hb with h | h
      · exact absurd (by rw [h]) hx
      · exact h

theorem eraseP_key_eq_filter {α : Type} (key : α → Int) :
    ∀ (l : List α), (l.map key).Nodup → ∀ i : Int,
      l.eraseP (fun x => key x == i) = l.filter (fun x => !(key x == i)) := by
  intro l
  induction l with
  | nil => intro _ i; rfl
  | cons x t ih =>
    intro hnd i
    rw [List.map_cons] at hnd
    have hnd2 := List.nodup_cons.mp hnd
    by_cases hx : key x = i
    · rw [List.eraseP_cons_of_pos (by simp [hx]), List.filter_cons_of_neg (by simp [hx])]
      refine (List.filter_eq_self.mpr ?_).symm
      intro a ha
      have hne : key a ≠ i := by
        intro hc
        exact hnd2.1 (hx ▸ hc ▸ List.mem_map_of_mem key ha)
      simp [hne]
    · rw [List.eraseP_cons_of_neg (by simp [hx]), List.filter_cons_of_pos (by simp [hx])]
      rw [ih hnd2.2 i]

theorem books_find_of_mem (l : List BookRec) (h : (l.map (fun x => x.id)).Nodup)
    (b : BookRec) (hb : b ∈ l) : l.find? (fun x => x.id == b.id) = some b :=
  find_key_of_mem (fun x => x.id) l h b hb

theorem books_eraseP_eq_filter (l : List BookRec) (h : (l.map (fun x => x.id)).Nodup)
    (i : Int) : l.eraseP (fun x => x.id == i) = l.filter (fun x => !(x.id == i)) :=
  eraseP_key_eq_filter (fun x => x.id) l h i

theorem authors_eraseP_eq_filter (l : List AuthorRec) (h : (l.map (fun x => x.id)).Nodup)
    (i : Int) : l.eraseP (fun x => x.id == i) = l.filter (fun x => !(x.id == i)) :=
  eraseP_key_eq_filter (fun x => x.id) l h i

/-! ### Reduction lemmas for the delete route -/

theorem delete_book_notfound (db : DB) (i : Int)
    (h : db.books.find? (fun x => x.id == i) = none) :
    delete_book db i = (db, .NotFound) := by
  unfold delete_book
  rw [h]

theorem delete_book_no_author (db : DB) (i : Int) (b : BookRec)
    (hfind : db.books.find? (fun x => x.id == i) = some b)
    (hauth : b.author_id.bind (fun aid => db.authors.find? (fun a => a.id == aid)) = none) :
    delete_book db i =
      (⟨db.authors, db.books.eraseP (fun x => x.id == i)⟩, .DeletedBookOnly) := by
  unfold delete_book
  rw [hfind]
  simp only [hauth]

theorem delete_book_author_last (db : DB) (i : Int) (b : BookRec) (a : AuthorRec)
    (hfind : db.books.find? (fun x => x.id == i) = some b)
    (hauth : b.author_id.bind (fun aid => db.authors.find? (fun x => x.id == aid)) = some a)
    (hempty : authorBooks ⟨db.authors, db.books.eraseP (fun x => x.id == i)⟩ a.id = []) :
    delete_book db i =
      (⟨db.authors.eraseP (fun x => x.id == a.id),
         db.books.eraseP (fun x => x.id == i)⟩, .DeletedBookAndAuthor) := by
  unfold delete_book
  rw [hfind]
  simp only [hauth, hempty, if_pos]

theorem delete_book_author_remains (db : DB) (i : Int) (b : BookRec) (a : AuthorRec)
    (hfind : db.books.find? (fun x => x.id == i) = some b)
    (hauth : b.author_id.bind (fun aid => db.authors.find? (fun x => x.id == aid)) = some a)
    (hne : authorBooks ⟨db.authors, db.books.eraseP (fun x => x.id == i)⟩ a.id ≠ []) :
    delete_book db i =
      (⟨db.authors, db.books.eraseP (fun x => x.id == i)⟩, .DeletedBookOnly) := by
  unfold delete_book
  rw [hfind]
  simp only [hauth]
  rw [if_neg hne]

theorem authorBooks_empty_after_erase (db : DB) (b : BookRec) (a : AuthorRec) (aid : Int)
    (hnb : (db.books.map (fun x => x.id)).Nodup)
    (haid : a.id = aid)
    (honly : ∀ b2 ∈ db.books, b2.author_id = some aid → b2.id = b.id) :
    authorBooks ⟨db.authors, db.books.eraseP (fun x => x.id == b.id)⟩ a.id = [] := by
  unfold authorBooks
  apply List.filter_eq_nil_iff.mpr
  intro x hx
  rw [books_eraseP_eq_filter db.books hnb b.id] at hx
  have hx1 := (List.mem_filter.mp hx).1
  have hx2 := (List.mem_filter.mp hx).2
  intro hpred
  have hxa : x.author_id = some aid := by
    rw [← haid]
    exact beq_iff_eq.mp hpred
  have := honly x hx1 hxa
  simp [this] at hx2

/-! ### C1: delete cascade -/

/-- C1: deleting a stored book by its id removes that book and never
reports not-found; when the book's author is left with zero books the
author row is removed too and `DeletedBookAndAuthor` is reported (a
subsequent author lookup finds nothing), otherwise `DeletedBookOnly` is
reported and the author remains queryable; an id matching no book yields
`NotFound` with the datastore unchanged. -/
theorem C1_delete_book_cascade :
    ∀ (db : DB) (b : BookRec),
      (db.books.map (fun x => x.id)).Nodup →
      (db.authors.map (fun x => x.id)).Nodup →
      b ∈ db.books →
      (b ∉ (delete_book db b.id).1.books ∧
        (delete_book db b.id).2 ≠ DeleteResult.NotFound) ∧
      (∀ (aid : Int) (a : AuthorRec), b.author_id = some aid →
        db.authors.find? (fun x => x.id == aid) = some a →
        ((∀ b2 ∈ db.books, b2.author_id = some aid → b2.id = b.id) →
          delete_book db b.id =
            (⟨db.authors.eraseP (fun x => x.id == a.id),
               db.books.eraseP (fun x => x.id == b.id)⟩,
             DeleteResult.DeletedBookAndAuthor) ∧
          (delete_book db b.id).1.authors.find? (fun x => x.id == aid) = none) ∧
        ((∃ b2 ∈ db.books, b2.author_id = some aid ∧ b2.id ≠ b.id) →
          delete_book db b.id =
            (⟨db.authors, db.books.eraseP (fun x => x.id == b.id)⟩,
             DeleteResult.DeletedBookOnly) ∧
          (delete_book db b.id).1.authors.find? (fun x => x.id == aid) = some a)) ∧
      (∀ i : Int, (∀ b2 ∈ db.books, b2.id ≠ i) →
        delete_book db i = (db, DeleteResult.NotFound)) := by
  intro db b hnb hna hb
  have hfind := books_find_of_mem db.books hnb b hb
  have herase := books_eraseP_eq_filter db.books hnb b.id
  have hbooks_not : b ∉ db.books.eraseP (fun x => x.id == b.id) := by
    rw [herase]
    intro hmem
    have := (List.mem_filter.mp hmem).2
    simp at this
  refine ⟨?_, ?_, ?_⟩
  · rcases hauth0 : b.author_id.bind (fun aid => db.authors.find? (fun x => x.id == aid))
        with _ | a
    · rw [delete_book_no_author db b.id b hfind hauth0]
      exact ⟨hbooks_not, by simp⟩
    · by_cases hemp :
          authorBooks ⟨db.authors, db.books.eraseP (fun x => x.id == b.id)⟩ a.id = []
      · rw [delete_book_author_last db b.id b a hfind hauth0 hemp]
        exact ⟨hbooks_not, by simp⟩
      · rw [delete_book_author_remains db b.id b a hfind hauth0 hemp]
        exact ⟨hbooks_not, by simp⟩
  · intro aid a hbaid hfa
    have hauth0 : b.author_id.bind (fun aid => db.authors.find? (fun x => x.id == aid))
        = some a := by
      rw [hbaid, Option.some_bind]
      exact hfa
    have haid : a.id = aid := by
      have := List.find?_some hfa
      simpa using this
    constructor
    · intro honly
      have hemp := authorBooks_empty_after_erase db b a aid hnb haid honly
      rw [delete_book_author_last db b.id b a hfind hauth0 hemp]
      refine ⟨rfl, ?_⟩
      show (db.authors.eraseP (fun x => x.id == a.id)).find? (fun x => x.id == aid) = none
      rw [authors_eraseP_eq_filter db.authors hna a.id]
      apply List.find?_eq_none.mpr
      intro x hx
      have hx2 := (List.mem_filter.mp hx).2
      simp only [Bool.not_eq_eq_eq_not, Bool.not_true, beq_eq_false_iff_ne, ne_eq] at hx2
      simp only [beq_iff_eq]
      rw [← haid]
      exact hx2
    · rintro ⟨b2, hb2, hb2aid, hb2ne⟩
      have hne :
          authorBooks ⟨db.authors, db.books.eraseP (fun x => x.id == b.id)⟩ a.id ≠ [] := by
        apply List.ne_nil_of_mem (a := b2)
        unfold authorBooks
        apply List.mem_filter.mpr
        constructor
        · rw [herase]
          exact List.mem_filter.mpr ⟨hb2, by simp [hb2ne]⟩
        · simp [hb2aid, haid]
      rw [delete_book_author_remains db b.id b a hfind hauth0 hne]
      exact ⟨rfl, hfa⟩
  · intro i hnone
    apply delete_book_notfound
    apply List.find?_eq_none.mpr
    intro x hx
    simp only [beq_iff_eq]
    exact hnone x hx

/-- C1 witness: in the sample datastore, deleting author 1's only book
removes book and author; deleting one of author 2's two books removes only
the book; and a delete against id 99 reports not-found. -/
theorem C1_delete_book_cascade_w :
    delete_book sampleDB 1 =
      (⟨sampleDB.authors.eraseP (fun x => x.id == (1 : Int)),
         sampleDB.books.eraseP (fun x => x.id == (1 : Int))⟩,
       DeleteResult.DeletedBookAndAuthor) ∧
    delete_book sampleDB 2 =
      (⟨sampleDB.authors, sampleDB.books.eraseP (fun x => x.id == (2 : Int))⟩,
       DeleteResult.DeletedBookOnly) ∧
    delete_book sampleDB 99 = (sampleDB, DeleteResult.NotFound) :=
  ⟨(((C1_delete_book_cascade sampleDB ⟨1, "isbn1", "T", none, some 1⟩
        (by decide) (by decide) (by decide)).2.1 1 ⟨1, "A", none, none⟩ rfl
        (by decide)).1 (by decide)).1,
   (((C1_delete_book_cascade sampleDB ⟨2, "isbn2", "U", none, some 2⟩
        (by decide) (by decide) (by decide)).2.1 2 ⟨2, "B", none, none⟩ rfl
        (by decide)).2 ⟨⟨3, "isbn3", "V", none, some 2⟩, by decide, by decide, by decide⟩).1,
   (C1_delete_book_cascade sampleDB ⟨1, "isbn1", "T", none, some 1⟩
        (by decide) (by decide) (by decide)).2.2 99 (by decide)⟩

/-! ### C2: the delete route uses two separate commits -/

theorem tx_commit1_fail (db : DB) (i : Int) (b : BookRec)
    (hfind : db.books.find? (fun x => x.id == i) = some b) (c2 : Bool) :
    delete_book_tx db i false c2 = (db, .raised) := by
  unfold delete_book_tx
  rw [hfind]
  simp

theorem tx_commit2_fail (db : DB) (i : Int) (b : BookRec) (a : AuthorRec)
    (hfind : db.books.find? (fun x => x.id == i) = some b)
    (hauth : b.author_id.bind (fun aid => db.authors.find? (fun x => x.id == aid)) = some a)
    (hempty : authorBooks ⟨db.authors, db.books.eraseP (fun x => x.id == i)⟩ a.id = []) :
    delete_book_tx db i true false =
      (⟨db.authors, db.books.eraseP (fun x => x.id == i)⟩, .raised) := by
  unfold delete_book_tx
  rw [hfind]
  simp [hauth, hempty]

theorem tx_all_commits_agree (db : DB) (i : Int) :
    delete_book_tx db i true true = ((delete_book db i).1, .ok (delete_book db i).2) := by
  unfold delete_book_tx delete_book
  rcases hf : db.books.find? (fun x => x.id == i) with _ | b
  · rw [hf]
  · rw [hf]
    rcases hauth : b.author_id.bind (fun aid => db.authors.find? (fun x => x.id == aid))
        with _ | a
    · simp [hauth]
    · by_cases hemp :
          authorBooks ⟨db.authors, db.books.eraseP (fun x => x.id == i)⟩ a.id = []
      · simp [hauth, hemp]
      · simp [hauth, hemp]

/-- C2 counterexample: in the sample datastore, deleting author 1's only
book with the first commit succeeding and the second failing is an exit
path that raises after the book row is durably gone while the now-bookless
author row persists — the forbidden intermediate state. -/
theorem C2_atomic_delete_cex :
    (delete_book_tx sampleDB 1 true false).2 = TxOutcome.raised ∧
    (∀ x ∈ (delete_book_tx sampleDB 1 true false).1.books, x.id ≠ 1) ∧
    (⟨1, "A", none, none⟩ : AuthorRec) ∈ (delete_book_tx sampleDB 1 true false).1.authors ∧
    authorBooks (delete_book_tx sampleDB 1 true false).1 1 = [] := by
  decide

/-- C2 amended: the book deletion and the conditional author deletion use
two separate commits rather than one atomic operation.  A failure of the
first commit leaves the datastore unchanged; when both commits succeed the
route deletes the book and, exactly when it was the author's last, the
author; but a failure of the second commit leaves the book deleted while
its now-bookless author persists. -/
theorem C2_delete_two_commits :
    ∀ (db : DB) (b : BookRec) (c2 : Bool),
      (db.books.map (fun x => x.id)).Nodup →
      b ∈ db.books →
      delete_book_tx db b.id false c2 = (db, TxOutcome.raised) ∧
      (∀ (aid : Int) (a : AuthorRec), b.author_id = some aid →
        db.authors.find? (fun x => x.id == aid) = some a →
        (∀ b2 ∈ db.books, b2.author_id = some aid → b2.id = b.id) →
        delete_book_tx db b.id true false =
          (⟨db.authors, db.books.eraseP (fun x => x.id == b.id)⟩, TxOutcome.raised) ∧
        a ∈ db.authors ∧
        authorBooks ⟨db.authors, db.books.eraseP (fun x => x.id == b.id)⟩ a.id = []) ∧
      (∀ (db2 : DB) (i : Int),
        delete_book_tx db2 i true true =
          ((delete_book db2 i).1, TxOutcome.ok (delete_book db2 i).2)) := by
  intro db b c2 hnb hb
  have hfind := books_find_of_mem db.books hnb b hb
  refine ⟨tx_commit1_fail db b.id b hfind c2, ?_, fun db2 i => tx_all_commits_agree db2 i⟩
  intro aid a hbaid hfa honly
  have hauth0 : b.author_id.bind (fun aid => db.authors.find? (fun x => x.id == aid))
      = some a := by
    rw [hbaid, Option.some_bind]
    exact hfa
  have haid : a.id = aid := by
    have := List.find?_some hfa
    simpa using this
  have hemp := authorBooks_empty_after_erase db b a aid hnb haid honly
  exact ⟨tx_commit2_fail db b.id b a hfind hauth0 hemp,
    List.mem_of_find?_eq_some hfa, hemp⟩

/-- C2 witness: instantiating the amended theorem on the sample datastore
(author 1, their only book). -/
theorem C2_delete_two_commits_w :
    delete_book_tx sampleDB 1 false false = (sampleDB, TxOutcome.raised) ∧
    (delete_book_tx sampleDB 1 true false =
      (⟨sampleDB.authors, sampleDB.books.eraseP (fun x => x.id == (1 : Int))⟩,
        TxOutcome.raised) ∧
      (⟨1, "A", none, none⟩ : AuthorRec) ∈ sampleDB.authors ∧
      authorBooks ⟨sampleDB.authors, sampleDB.books.eraseP (fun x => x.id == (1 : Int))⟩ 1 = []) ∧
    delete_book_tx sampleDB 1 true true =
      ((delete_book sampleDB 1).1, TxOutcome.ok (delete_book sampleDB 1).2) :=
  ⟨(C2_delete_two_commits sampleDB ⟨1, "isbn1", "T", none, some 1⟩ false
      (by decide) (by decide)).1,
   (C2_delete_two_commits sampleDB ⟨1, "isbn1", "T", none, some 1⟩ false
      (by decide) (by decide)).2.1 1 ⟨1, "A", none, none⟩ rfl (by decide) (by decide),
   (C2_delete_two_commits sampleDB ⟨1, "isbn1", "T", none, some 1⟩ false
      (by decide) (by decide)).2.2 sampleDB 1⟩

/-! ### C9: search -/

theorem likeMatch_percent (cs : List Char) : likeMatch ['%'] cs = true := by
  have h0 : likeMatch ['%'] cs = cs.tails.any (fun t => likeMatch [] t) := by
    simp [likeMatch]
  rw [h0]
  apply List.any_eq_true.mpr
  exact ⟨[], (List.mem_tails _ _).mpr ⟨cs, by simp⟩, rfl⟩

theorem likeMatch_append_percent (q : List Char) (hq : ∀ c ∈ q, c ≠ '%' ∧ c ≠ '_') :
    ∀ cs, likeMatch (q ++ ['%']) cs = true ↔ q <+: cs := by
  induction q with
  | nil =>
    intro cs
    constructor
    · intro _
      exact ⟨cs, rfl⟩
    · intro _
      exact likeMatch_percent cs
  | cons a q ih =>
    intro cs
    have ha := hq a (List.mem_cons_self a q)
    have hq2 : ∀ c ∈ q, c ≠ '%' ∧ c ≠ '_' := fun c hc => hq c (List.mem_cons_of_mem a hc)
    rcases cs with _ | ⟨c, cs'⟩
    · simp only [List.cons_append, likeMatch]
      rw [if_neg ha.1]
      constructor
      · intro h
        simp at h
      · rintro ⟨t, ht⟩
        simp at ht
    · simp only [List.cons_append, likeMatch]
      rw [if_neg ha.1]
      rw [List.cons_prefix_cons]
      simp only [Bool.and_eq_true, Bool.or_eq_true, beq_iff_eq, List.append_eq]
      rw [ih hq2 cs']
      constructor
      · rintro ⟨h1 | h1, h2⟩
        · exact absurd h1 ha.2
        · exact ⟨h1, h2⟩
      · rintro ⟨h1, h2⟩
        exact ⟨Or.inr h1, h2⟩

theorem likeMatch_infix_iff (q : List Char) (hq : ∀ c ∈ q, c ≠ '%' ∧ c ≠ '_')
    (cs : List Char) :
    likeMatch ('%' :: (q ++ ['%'])) cs = true ↔ q <:+: cs := by
  have h0 : likeMatch ('%' :: (q ++ ['%'])) cs
      = cs.tails.any (fun t => likeMatch (q ++ ['%']) t) := by
    simp [likeMatch]
  rw [h0, List.any_eq_true]
  constructor
  · rintro ⟨t, ht, hmt⟩
    exact List.infix_iff_prefix_suffix.mpr
      ⟨t, (likeMatch_append_percent q hq t).mp hmt, (List.mem_tails _ _).mp ht⟩
  · intro hinf
    rcases List.infix_iff_prefix_suffix.mp hinf with ⟨t, hpre, hsuf⟩
    exact ⟨t, (List.mem_tails _ _).mpr hsuf, (likeMatch_append_percent q hq t).mpr hpre⟩

theorem pyLower_pattern (q : String) :
    (pyLower ("%" ++ q ++ "%")).data = '%' :: ((pyLower q).data ++ ['%']) := by
  show (("%" ++ q ++ "%").data.map lowerChar) = '%' :: ((pyLower q).data ++ ['%'])
  rw [String.data_append, String.data_append]
  have h1 : ("%" : String).data = ['%'] := rfl
  have h2 : lowerChar '%' = '%' := by decide
  rw [h1]
  simp [pyLower, List.map_append, h2]

theorem ilike_eq_containsCI (t sq : String)
    (hw : ∀ c ∈ (pyLower sq).data, c ≠ '%' ∧ c ≠ '_') :
    ilike t ("%" ++ sq ++ "%") = containsCI sq t := by
  unfold ilike containsCI
  rw [pyLower_pattern, Bool.eq_iff_iff,
    likeMatch_infix_iff (pyLower sq).data hw (pyLower t).data, decide_eq_true_iff]

/-- C9 counterexample: the spec says the raw query string is passed
straight to the book query; but the route strips it first, so for the
query " x" against a book titled "ax" the route returns the book while the
raw-substring reading returns nothing. -/
theorem C9_raw_query_cex :
    (home ⟨[], [⟨1, "1234567890", "ax", none, none⟩]⟩ " x").1 ≠
      (homeSpecClaim ⟨[], [⟨1, "1234567890", "ax", none, none⟩]⟩ " x").1 := by
  decide

/-- C9 amended: the query string is stripped of surrounding whitespace
before being passed to the book query; when the stripped query is empty
the full listing is returned, when it is non-empty and free of SQL LIKE
wildcards the result is exactly the books whose title contains it
case-insensitively, and the no-results indicator is set exactly when the
stripped query is non-empty and the result is empty. -/
theorem C9_search_stripped :
    ∀ (db : DB) (rawQ : String),
      (pyStrip rawQ = "" → home db rawQ = (db.books, false)) ∧
      ((∀ c ∈ (pyLower (pyStrip rawQ)).data, c ≠ '%' ∧ c ≠ '_') →
        (home db rawQ).1 =
          db.books.filter (fun b => containsCI (pyStrip rawQ) b.title)) ∧
      ((home db rawQ).2 = true ↔ pyStrip rawQ ≠ "" ∧ (home db rawQ).1 = []) := by
  intro db rawQ
  refine ⟨?_, ?_, ?_⟩
  · intro h
    simp [home, h]
  · intro hw
    by_cases hq : pyStrip rawQ = ""
    · have h1 : (home db rawQ).1 = db.books := by simp [home, hq]
      rw [h1]
      refine (List.filter_eq_self.mpr ?_).symm
      intro b _
      apply decide_eq_true
      rw [hq]
      exact ⟨[], (pyLower b.title).data, rfl⟩
    · have h1 : (home db rawQ).1 =
          db.books.filter (fun b => ilike b.title ("%" ++ pyStrip rawQ ++ "%")) := by
        simp [home, hq]
      rw [h1]
      apply List.filter_congr
      intro b _
      exact ilike_eq_containsCI b.title (pyStrip rawQ) hw
  · simp [home, Bool.and_eq_true, List.isEmpty_iff]

/-- C9 witness: an empty query lists everything; " Hobbit " is stripped
and matched case-insensitively; a non-matching query sets the indicator. -/
theorem C9_search_stripped_w :
    home ⟨[], [⟨1, "i", "The Hobbit", none, none⟩]⟩ "" =
      (([⟨1, "i", "The Hobbit", none, none⟩] : List BookRec), false) ∧
    (home ⟨[], [⟨1, "i", "The Hobbit", none, none⟩]⟩ " Hobbit ").1 =
      ([⟨1, "i", "The Hobbit", none, none⟩] : List BookRec).filter
        (fun b => containsCI (pyStrip " Hobbit ") b.title) ∧
    ((home ⟨[], [⟨1, "i", "The Hobbit", none, none⟩]⟩ "zzz").2 = true ↔
      pyStrip "zzz" ≠ "" ∧
        (home ⟨[], [⟨1, "i", "The Hobbit", none, none⟩]⟩ "zzz").1 = []) :=
  ⟨(C9_search_stripped ⟨[], [⟨1, "i", "The Hobbit", none, none⟩]⟩ "").1 (by decide),
   (C9_search_stripped ⟨[], [⟨1, "i", "The Hobbit", none, none⟩]⟩ " Hobbit ").2.1 (by decide),
   (C9_search_stripped ⟨[], [⟨1, "i", "The Hobbit", none, none⟩]⟩ "zzz").2.2⟩

end BookAlchemy
